import Mathlib

/-
Verification of the tidepool-go client library against its specification.

Modelling conventions:
- JSON documents are represented by the inductive `Json` below; Go's
  `encoding/json` unmarshalling semantics are embedded as functions on that
  AST (null into a slice or pointer yields nil, unknown object fields are
  ignored, later duplicate keys override earlier ones, a type mismatch on a
  known field is an unmarshal error).
- Go `float32` values are modelled by `ℚ`; every numeric literal appearing in
  the claims (1.5, -0.3, 0, 1) is exactly representable in float32, so the
  rational model is faithful for the clamping and score-selection properties.
- Go errors are modelled by the inductive `GoError`; `errors.Is` is the
  function `errIs`, `errors.Join` of the two operands used by the source is
  the binary constructor `joined`, and `fmt.Errorf` with a leading `%w` verb
  is the constructor `wrapped`.
- Fallible Go functions returning `(T, error)` are modelled as
  `Except GoError T`; a Go nil slice is distinguished from an empty slice by
  `Option (List α)`.
-/

namespace Tidepool

/-- JSON value, as parsed by Go's encoding/json package. Object fields are
kept in document order so that duplicate-key handling matches Go. -/
inductive Json where
  | null : Json
  | bool (b : Bool) : Json
  | num (q : ℚ) : Json
  | str (s : String) : Json
  | arr (elems : List Json) : Json
  | obj (fields : List (String × Json)) : Json

/-- The three sentinel error kinds declared in errors.go. -/
inductive Sentinel where
  | validation
  | notFound
  | serviceUnavailable
deriving DecidableEq

/-- Go error values produced by the client, mirroring errors.go and the error
construction sites in client.go: `basic` is a plain fmt.Errorf error,
`sentinel` is one of the package sentinels, `tidepool` is a &TidepoolError
value (message, status code, raw response body), `wrapped` is
fmt.Errorf with a leading %w verb (message = inner message ++ rest), and
`joined` is errors.Join of exactly two errors as used by handleError. -/
inductive GoError where
  | basic (msg : String) : GoError
  | sentinel (s : Sentinel) (msg : String) : GoError
  | tidepool (msg : String) (statusCode : Int) (response : Json) : GoError
  | wrapped (inner : GoError) (rest : String) : GoError
  | joined (a b : GoError) : GoError

/-- ErrValidation sentinel from errors.go. -/
def ErrValidation : GoError := .sentinel .validation "validation error"

/-- ErrNotFound sentinel from errors.go. -/
def ErrNotFound : GoError := .sentinel .notFound "not found"

/-- ErrServiceUnavailable sentinel from errors.go. -/
def ErrServiceUnavailable : GoError := .sentinel .serviceUnavailable "service unavailable"

/-- errors.Is against a sentinel kind: walks wrap chains and both branches of
an errors.Join tree; a TidepoolError value never matches a sentinel. -/
def errIs : GoError → Sentinel → Bool
  | .sentinel s' _, s => s' = s
  | .wrapped inner _, s => errIs inner s
  | .joined a b, s => errIs a s || errIs b s
  | .basic _, _ => false
  | .tidepool _ _ _, _ => false

/-- IsValidationError from errors.go. -/
def IsValidationError (e : GoError) : Bool := errIs e .validation

/-- IsNotFoundError from errors.go. -/
def IsNotFoundError (e : GoError) : Bool := errIs e .notFound

/-- IsServiceUnavailableError from errors.go. -/
def IsServiceUnavailableError (e : GoError) : Bool := errIs e .serviceUnavailable

/-- The Error() string of a Go error value: TidepoolError returns its
Message, errors.Join concatenates with a newline, and fmt.Errorf with a
leading %w produces the inner message followed by the rest of the format. -/
def errMessage : GoError → String
  | .basic m => m
  | .sentinel _ m => m
  | .tidepool m _ _ => m
  | .wrapped inner rest => errMessage inner ++ rest
  | .joined a b => errMessage a ++ "\n" ++ errMessage b

/-- errors.As for *TidepoolError: extracts the (message, status code, raw
body) detail carrier from an error tree, if one is present. -/
def tidepoolDetail : GoError → Option (String × Int × Json)
  | .tidepool m c b => some (m, c, b)
  | .wrapped inner _ => tidepoolDetail inner
  | .joined a b => (tidepoolDetail a).orElse fun _ => tidepoolDetail b
  | _ => none

/-- http.StatusText for the 4xx and 5xx codes assigned by net/http; unknown
codes map to the empty string, as in Go. -/
def statusText : Int → String
  | 400 => "Bad Request"
  | 401 => "Unauthorized"
  | 402 => "Payment Required"
  | 403 => "Forbidden"
  | 404 => "Not Found"
  | 405 => "Method Not Allowed"
  | 406 => "Not Acceptable"
  | 407 => "Proxy Authentication Required"
  | 408 => "Request Timeout"
  | 409 => "Conflict"
  | 410 => "Gone"
  | 411 => "Length Required"
  | 412 => "Precondition Failed"
  | 413 => "Request Entity Too Large"
  | 414 => "Request URI Too Long"
  | 415 => "Unsupported Media Type"
  | 416 => "Requested Range Not Satisfiable"
  | 417 => "Expectation Failed"
  | 418 => "I\x27m a teapot"
  | 421 => "Misdirected Request"
  | 422 => "Unprocessable Entity"
  | 423 => "Locked"
  | 424 => "Failed Dependency"
  | 425 => "Too Early"
  | 426 => "Upgrade Required"
  | 428 => "Precondition Required"
  | 429 => "Too Many Requests"
  | 431 => "Request Header Fields Too Large"
  | 451 => "Unavailable For Legal Reasons"
  | 500 => "Internal Server Error"
  | 501 => "Not Implemented"
  | 502 => "Bad Gateway"
  | 503 => "Service Unavailable"
  | 504 => "Gateway Timeout"
  | 505 => "HTTP Version Not Supported"
  | 506 => "Variant Also Negotiates"
  | 507 => "Insufficient Storage"
  | 508 => "Loop Detected"
  | 510 => "Not Extended"
  | 511 => "Network Authentication Required"
  | _ => ""

/-- Result of json.Unmarshal of a body into struct with a single
string field tagged json error, with the unmarshal error discarded as in
handleError: object fields are processed in order, a string value for the
error key overwrites the accumulator, any other value for it (type error or
null) leaves the accumulator unchanged, and a non-object body leaves the
zero value. -/
def unmarshalErrField : Json → String
  | .obj fs =>
      fs.foldl
        (fun acc f =>
          if f.1 = "error" then
            match f.2 with
            | .str s => s
            | _ => acc
          else acc)
        ""
  | _ => ""

/-- strings.TrimSpace, modelled over the character list: leading and
trailing whitespace characters are removed. -/
def trimSpace (s : String) : String :=
  ⟨((s.data.dropWhile Char.isWhitespace).reverse.dropWhile Char.isWhitespace).reverse⟩

/-- handleError from client.go: extract the error-body message, trim it,
fall back to the HTTP status text when empty, build a TidepoolError carrying
message, status code and raw body, and join it with the matching sentinel for
400/413 (validation), 404 (not found) and 503 (service unavailable);
any other status returns the bare TidepoolError. -/
def handleError (statusCode : Int) (body : Json) : GoError :=
  let msg0 := trimSpace (unmarshalErrField body)
  let msg := if msg0 = "" then statusText statusCode else msg0
  let tideErr := GoError.tidepool msg statusCode body
  if statusCode = 400 ∨ statusCode = 413 then .joined ErrValidation tideErr
  else if statusCode = 404 then .joined ErrNotFound tideErr
  else if statusCode = 503 then .joined ErrServiceUnavailable tideErr
  else tideErr

/-- Client configuration from options.go. The HTTPClient field and the
time.Duration representation of Timeout are irrelevant to the claims and are
omitted; Timeout is carried as an integer number of seconds. -/
structure Config where
  queryURL : String
  ingestURL : String
  timeout : Int
  defaultNamespace : String := ""
  «namespace» : String := ""

/-- Functional option over the configuration, as in options.go. -/
def ClientOption := Config → Config

/-- defaultQueryURL constant from options.go. -/
def defaultQueryURL : String := "http://localhost:8080"

/-- defaultIngestURL constant from options.go. -/
def defaultIngestURL : String := "http://localhost:8081"

/-- defaultNamespace constant from options.go. -/
def defaultNamespace : String := "default"

/-- WithQueryURL from options.go. -/
def WithQueryURL (url : String) : ClientOption := fun c => { c with queryURL := url }

/-- WithIngestURL from options.go. -/
def WithIngestURL (url : String) : ClientOption := fun c => { c with ingestURL := url }

/-- WithNamespace from options.go: sets both the deprecated Namespace field
and DefaultNamespace. -/
def WithNamespace (ns : String) : ClientOption :=
  fun c => { c with «namespace» := ns, defaultNamespace := ns }

/-- WithDefaultNamespace from options.go: sets only DefaultNamespace. -/
def WithDefaultNamespace (ns : String) : ClientOption :=
  fun c => { c with defaultNamespace := ns }

/-- New from client.go, restricted to its configuration part: the initial
configuration sets QueryURL, IngestURL, Timeout and the deprecated Namespace
field (to the built-in default), leaving DefaultNamespace at its zero value,
then applies the options in order. -/
def New (opts : List ClientOption) : Config :=
  opts.foldl (fun c o => o c)
    { queryURL := defaultQueryURL
      ingestURL := defaultIngestURL
      timeout := 30
      defaultNamespace := ""
      «namespace» := defaultNamespace }

/-- namespaceOrDefault from client.go: a non-empty per-call namespace wins;
otherwise the configuration's deprecated Namespace field is used when
non-empty; otherwise a validation error. Note the source reads
c.config.Namespace, not c.config.DefaultNamespace. -/
def namespaceOrDefault (c : Config) (ns : String) : Except GoError String :=
  if ns ≠ "" then .ok ns
  else if c.«namespace» ≠ "" then .ok c.«namespace»
  else .error (.wrapped ErrValidation ": namespace is required")

/-- joinURL from client.go. url.JoinPath is modelled as slash-joining the
base with the path elements, which is its behaviour for the slash-free
components the client passes. -/
def joinURL (base : String) (parts : List String) : Except GoError String :=
  if base = "" then .error (.wrapped ErrValidation ": base URL is required")
  else .ok (String.intercalate "/" (base :: parts))

/-- strings.ToLower, modelled as character-wise lowercasing of the string's
characters. -/
def toLowerStr (s : String) : String := ⟨s.data.map Char.toLower⟩

/-- serviceBaseURL from client.go: lowercases the service name and selects
the query or ingest base URL, otherwise returns a validation error whose
message quotes the unknown service name. -/
def serviceBaseURL (c : Config) (service : String) : Except GoError String :=
  if toLowerStr service = "query" then .ok c.queryURL
  else if toLowerStr service = "ingest" then .ok c.ingestURL
  else .error (.wrapped ErrValidation (": unknown service \"" ++ service ++ "\""))

/-- Health from client.go, up to the point where the HTTP request would be
issued: it resolves the service base URL, joins the health path, and only
then performs the request. An error result means no request was issued. -/
def healthPlan (c : Config) (service : String) : Except GoError (String × String) := do
  let baseURL ← serviceBaseURL c service
  let endpoint ← joinURL baseURL ["health"]
  return ("GET", endpoint)

/-- A query result, from the current types.go (the one accompanying the
test files): ID, score, optional echoed vector, optional attributes. The
vector and attributes distinguish a Go nil from a present value. -/
structure VectorResult where
  id : String := ""
  score : ℚ := 0
  vector : Option (List ℚ) := none
  attributes : Option Json := none

/-- Decode a list of JSON values as float32 elements, failing on the first
non-number. -/
def numElems : List Json → Option (List ℚ)
  | [] => some []
  | .num q :: es => (numElems es).map fun t => q :: t
  | _ :: _ => none

/-- Unmarshal a JSON value into a float32 slice: null yields nil, an array
of numbers yields the list, anything else is an unmarshal error. -/
def unmarshalQList : Json → Option (Option (List ℚ))
  | .null => some none
  | .arr es => (numElems es).map some
  | _ => none

/-- Unmarshal a JSON value into a *float32 field: null sets the pointer to
nil, a number sets it, anything else is an unmarshal error. -/
def unmarshalOptNum : Json → Option (Option ℚ)
  | .null => some none
  | .num q => some (some q)
  | _ => none

/-- The local alias struct inside VectorResult.UnmarshalJSON in types.go:
ID, Vector, Attributes, and pointer-typed Score, Dist and Distance fields. -/
structure VRAlias where
  id : String := ""
  vector : Option (List ℚ) := none
  attributes : Option Json := none
  score : Option ℚ := none
  dist : Option ℚ := none
  distance : Option ℚ := none

/-- Apply one JSON object field to the alias struct, following Go's
struct unmarshalling: known fields must type-match (null is a no-op for the
string field and nils the pointer and slice fields), unknown fields are
ignored. -/
def applyVRField (a : VRAlias) (f : String × Json) : Option VRAlias :=
  if f.1 = "id" then
    match f.2 with
    | .str s => some { a with id := s }
    | .null => some a
    | _ => none
  else if f.1 = "vector" then
    (unmarshalQList f.2).map fun l => { a with vector := l }
  else if f.1 = "attributes" then
    match f.2 with
    | .null => some { a with attributes := none }
    | .obj o => some { a with attributes := some (.obj o) }
    | _ => none
  else if f.1 = "score" then
    (unmarshalOptNum f.2).map fun v => { a with score := v }
  else if f.1 = "dist" then
    (unmarshalOptNum f.2).map fun v => { a with dist := v }
  else if f.1 = "distance" then
    (unmarshalOptNum f.2).map fun v => { a with distance := v }
  else some a

/-- json.Unmarshal into the alias struct: null is a no-op success, an object
applies its fields in order, anything else is an unmarshal error. -/
def unmarshalVRAlias : Json → Option VRAlias
  | .null => some {}
  | .obj fs => fs.foldlM applyVRField {}
  | _ => none

/-- VectorResult.UnmarshalJSON from types.go: decode the alias struct, then
select the score with priority score, else dist, else distance, else 0. -/
def unmarshalVectorResult (j : Json) : Option VectorResult :=
  (unmarshalVRAlias j).map fun d =>
    { id := d.id
      vector := d.vector
      attributes := d.attributes
      score :=
        match d.score, d.dist, d.distance with
        | some s, _, _ => s
        | none, some dv, _ => dv
        | none, none, some dd => dd
        | none, none, none => 0 }

/-- Decode a list of JSON values element-wise through
VectorResult.UnmarshalJSON, failing on the first element error. -/
def vectorResultElems : List Json → Option (List VectorResult)
  | [] => some []
  | e :: es => (unmarshalVectorResult e).bind fun r => (vectorResultElems es).map fun t => r :: t

/-- json.Unmarshal into a []VectorResult: null yields a nil slice, an array
decodes each element through VectorResult.UnmarshalJSON, anything else is an
unmarshal error. -/
def unmarshalVectorResultList : Json → Option (Option (List VectorResult))
  | .null => some none
  | .arr es => (vectorResultElems es).map some
  | _ => none

/-- The anonymous wrapped struct inside decodeVectorResults in client.go,
with Results and Vectors slice fields. -/
structure WrappedResults where
  results : Option (List VectorResult) := none
  vectors : Option (List VectorResult) := none

/-- Apply one JSON object field to the wrapped-results struct. -/
def applyWRField (w : WrappedResults) (f : String × Json) : Option WrappedResults :=
  if f.1 = "results" then
    (unmarshalVectorResultList f.2).map fun l => { w with results := l }
  else if f.1 = "vectors" then
    (unmarshalVectorResultList f.2).map fun l => { w with vectors := l }
  else some w

/-- json.Unmarshal into the wrapped-results struct. -/
def unmarshalWrappedResults : Json → Option WrappedResults
  | .null => some {}
  | .obj fs => fs.foldlM applyWRField {}
  | _ => none

/-- decodeVectorResults from client.go: first try a bare list, then the
wrapped object, preferring its results field over its vectors field; if the
wrapped object fails to decode or carries neither field, return a plain
decode error that wraps no sentinel. -/
def decodeVectorResults (data : Json) : Except GoError (Option (List VectorResult)) :=
  match unmarshalVectorResultList data with
  | some direct => .ok direct
  | none =>
    match unmarshalWrappedResults data with
    | none => .error (.basic "decode query response: unmarshal error")
    | some w =>
      match w.results with
      | some rs => .ok (some rs)
      | none =>
        match w.vectors with
        | some vs => .ok (some vs)
        | none => .error (.basic "decode query response: missing results")

/-- QueryResponse from types.go: the decoded results (a Go slice, possibly
nil) and the namespace actually queried. -/
structure QueryResponse where
  results : Option (List VectorResult) := none
  «namespace» : String := ""

/-- The wrapped query-response struct used when decoding a query body:
namespace, results and vectors fields. -/
structure WrappedQueryResponse where
  «namespace» : String := ""
  results : Option (List VectorResult) := none
  vectors : Option (List VectorResult) := none

/-- Apply one JSON object field to the wrapped query-response struct. -/
def applyWQRField (w : WrappedQueryResponse) (f : String × Json) : Option WrappedQueryResponse :=
  if f.1 = "namespace" then
    match f.2 with
    | .str s => some { w with «namespace» := s }
    | .null => some w
    | _ => none
  else if f.1 = "results" then
    (unmarshalVectorResultList f.2).map fun l => { w with results := l }
  else if f.1 = "vectors" then
    (unmarshalVectorResultList f.2).map fun l => { w with vectors := l }
  else some w

/-- json.Unmarshal into the wrapped query-response struct. -/
def unmarshalWrappedQueryResponse : Json → Option WrappedQueryResponse
  | .null => some {}
  | .obj fs => fs.foldlM applyWQRField {}
  | _ => none

/-- Modelled from the spec: decodeQueryResponse of the current client.go is
absent from src/ (only its tests and the old decodeVectorResults are
present). Per spec section 4.4 and TestDecodeQueryResponse: try a bare list
first, reporting the namespace the client resolved and sent (the fallback);
otherwise decode the wrapped object, prefer its results field over its
vectors field, and report the server-supplied namespace when the wrapped
object includes one (a non-empty namespace field), else the fallback; fail
with a plain decode error when neither shaped field is present. -/
def decodeQueryResponse (data : Json) (fallback : String) : Except GoError QueryResponse :=
  match unmarshalVectorResultList data with
  | some direct => .ok { results := direct, «namespace» := fallback }
  | none =>
    match unmarshalWrappedQueryResponse data with
    | none => .error (.basic "decode query response: unmarshal error")
    | some w =>
      let ns := if w.«namespace» ≠ "" then w.«namespace» else fallback
      match w.results with
      | some rs => .ok { results := some rs, «namespace» := ns }
      | none =>
        match w.vectors with
        | some vs => .ok { results := some vs, «namespace» := ns }
        | none => .error (.basic "decode query response: missing results")

/-- QueryOptions from the current types.go, restricted to the fields the
claims exercise: TopK, Namespace, Text, Mode, Alpha, Fusion, RRFK. Mode and
Fusion are carried as their underlying strings, with the empty string for
the unset value. -/
structure QueryOptions where
  topK : Int := 0
  «namespace» : String := ""
  text : String := ""
  mode : String := ""
  alpha : Option ℚ := none
  fusion : String := ""
  rrfK : Option Int := none

/-- Modelled from the spec: the effective query mode of the current
client.go, which is absent from src/. An explicit mode wins; with no mode
set, a non-empty text infers hybrid when a vector is present and text when
not (README query-modes section and TestQueryRequestPayload); otherwise the
query is a vector query. -/
def effectiveMode (vector : List ℚ) (o : QueryOptions) : String :=
  if o.mode ≠ "" then o.mode
  else if o.text ≠ "" then (if vector ≠ [] then "hybrid" else "text")
  else "vector"

/-- Modelled from the spec: the query validation of the current client.go,
which is absent from src/. Per spec section 4.3 and TestQueryValidation:
top_k must be non-negative; mode and fusion must be members of their closed
enumerations; rrf_k, when supplied, must be positive; then the mode matrix:
text mode requires text (vector optional), hybrid requires both vector and
text, vector mode requires a non-empty vector. -/
def validateQuery (vector : List ℚ) (o : QueryOptions) : Except GoError Unit :=
  if o.topK < 0 then .error (.wrapped ErrValidation ": top_k cannot be negative")
  else if ¬(o.mode = "" ∨ o.mode = "vector" ∨ o.mode = "text" ∨ o.mode = "hybrid") then
    .error (.wrapped ErrValidation ": invalid query mode")
  else if ¬(o.fusion = "" ∨ o.fusion = "blend" ∨ o.fusion = "rrf") then
    .error (.wrapped ErrValidation ": invalid fusion mode")
  else if o.rrfK.getD 1 ≤ 0 then
    .error (.wrapped ErrValidation ": rrf_k must be positive")
  else if effectiveMode vector o = "text" then
    if o.text = "" then .error (.wrapped ErrValidation ": text is required for text mode")
    else .ok ()
  else if effectiveMode vector o = "hybrid" then
    if vector = [] then .error (.wrapped ErrValidation ": vector is required for hybrid mode")
    else if o.text = "" then .error (.wrapped ErrValidation ": text is required for hybrid mode")
    else .ok ()
  else
    if vector = [] then .error (.wrapped ErrValidation ": vector cannot be empty")
    else .ok ()

/-- The outgoing query wire payload, restricted to the fields the claims
exercise. A `none` field is omitted from the serialized JSON. -/
structure QueryPayload where
  vector : Option (List ℚ) := none
  text : Option String := none
  mode : String := ""
  alpha : Option ℚ := none
  topK : Option Int := none
  fusion : Option String := none
  rrfK : Option Int := none

/-- Modelled from the spec: the payload construction of the current
client.go, which is absent from src/. Per spec section 4.3: an absent vector
is omitted entirely; alpha, when supplied, is clamped into the interval from
0 to 1 rather than rejected; top_k is transmitted only when positive
(omitempty). -/
def buildQueryPayload (vector : List ℚ) (o : QueryOptions) : QueryPayload :=
  { vector := if vector = [] then none else some vector
    text := if o.text = "" then none else some o.text
    mode := effectiveMode vector o
    alpha := o.alpha.map fun a => if a < 0 then 0 else if a > 1 then 1 else a
    topK := if o.topK > 0 then some o.topK else none
    fusion := if o.fusion = "" then none else some o.fusion
    rrfK := o.rrfK }

/-- A fully built query request: endpoint, resolved namespace, payload. -/
structure QueryRequest where
  endpoint : String
  «namespace» : String
  payload : QueryPayload

/-- Modelled from the spec: the Query method of the current client.go up to
the point where the HTTP request would be issued — validate, resolve the
namespace, build the endpoint and payload. An error result means no network
request was issued (spec section 4.3: all validation happens before network
I/O). -/
def queryPlan (c : Config) (vector : List ℚ) (o : QueryOptions) : Except GoError QueryRequest :=
  match validateQuery vector o with
  | .error e => .error e
  | .ok _ =>
    match namespaceOrDefault c o.«namespace» with
    | .error e => .error e
    | .ok ns =>
      match joinURL c.queryURL ["v1", "vectors", ns] with
      | .error e => .error e
      | .ok endpoint =>
        .ok { endpoint := endpoint, «namespace» := ns, payload := buildQueryPayload vector o }

/-- NamespaceInfo from types.go: name, approximate count, dimensionality,
optional pending-compaction flag. -/
structure NamespaceInfo where
  «namespace» : String := ""
  approxCount : Int := 0
  dimensions : Int := 0
  pendingCompaction : Option Bool := none

/-- A names-only namespace record: only the name field is populated, the
rest stay at their zero values. -/
def minimalInfo (name : String) : NamespaceInfo := { «namespace» := name }

/-- Unmarshal a JSON value into an integer field: Go rejects non-integral
numbers when decoding into an int. -/
def unmarshalInt (j : Json) : Option Int :=
  match j with
  | .num q => if q.den = 1 then some q.num else none
  | _ => none

/-- Apply one JSON object field to a NamespaceInfo. -/
def applyNIField (a : NamespaceInfo) (f : String × Json) : Option NamespaceInfo :=
  if f.1 = "namespace" then
    match f.2 with
    | .str s => some { a with «namespace» := s }
    | .null => some a
    | _ => none
  else if f.1 = "approx_count" then
    match f.2 with
    | .null => some a
    | j => (unmarshalInt j).map fun n => { a with approxCount := n }
  else if f.1 = "dimensions" then
    match f.2 with
    | .null => some a
    | j => (unmarshalInt j).map fun n => { a with dimensions := n }
  else if f.1 = "pending_compaction" then
    match f.2 with
    | .null => some { a with pendingCompaction := none }
    | .bool b => some { a with pendingCompaction := some b }
    | _ => none
  else some a

/-- json.Unmarshal into a NamespaceInfo. -/
def unmarshalNamespaceInfo : Json → Option NamespaceInfo
  | .null => some {}
  | .obj fs => fs.foldlM applyNIField {}
  | _ => none

/-- Decode a list of JSON values element-wise as NamespaceInfo records,
failing on the first element error. -/
def namespaceInfoElems : List Json → Option (List NamespaceInfo)
  | [] => some []
  | e :: es => (unmarshalNamespaceInfo e).bind fun r => (namespaceInfoElems es).map fun t => r :: t

/-- json.Unmarshal into a []NamespaceInfo. -/
def unmarshalNamespaceInfoList : Json → Option (Option (List NamespaceInfo))
  | .null => some none
  | .arr es => (namespaceInfoElems es).map some
  | _ => none

/-- Decode a list of JSON values as string elements, failing on the first
non-string. -/
def strElems : List Json → Option (List String)
  | [] => some []
  | .str s :: es => (strElems es).map fun t => s :: t
  | _ :: _ => none

/-- json.Unmarshal into a []string. -/
def unmarshalStringList : Json → Option (Option (List String))
  | .null => some none
  | .arr es => (strElems es).map some
  | _ => none

/-- The wrapped namespace-listing struct: a namespaces field of full info
objects and a legacy namespace_list field of names. -/
structure WrappedNamespaces where
  namespaces : Option (List NamespaceInfo) := none
  namespaceList : Option (List String) := none

/-- Apply one JSON object field to the wrapped namespace-listing struct. -/
def applyWNField (w : WrappedNamespaces) (f : String × Json) : Option WrappedNamespaces :=
  if f.1 = "namespaces" then
    (unmarshalNamespaceInfoList f.2).map fun l => { w with namespaces := l }
  else if f.1 = "namespace_list" then
    (unmarshalStringList f.2).map fun l => { w with namespaceList := l }
  else some w

/-- json.Unmarshal into the wrapped namespace-listing struct. -/
def unmarshalWrappedNamespaces : Json → Option WrappedNamespaces
  | .null => some {}
  | .obj fs => fs.foldlM applyWNField {}
  | _ => none

/-- Modelled from the spec: the decodeNamespaces of the current client.go,
which returns NamespaceInfo records, is absent from src/ (the src snapshot
only carries an older names-only variant). Per spec section 4.4 and
TestDecodeNamespaces, the shape matchers are tried in priority order: a bare
list of names (synthesized into minimal info records), a bare list of full
info objects, a wrapped object with a namespaces field, a wrapped object
with a legacy namespace_list field of names; decoding fails with a plain
decode error when no shape matches. -/
def decodeNamespaces (data : Json) : Except GoError (List NamespaceInfo) :=
  match unmarshalStringList data with
  | some (some names) => .ok (names.map minimalInfo)
  | _ =>
    match unmarshalNamespaceInfoList data with
    | some (some infos) => .ok infos
    | _ =>
      match unmarshalWrappedNamespaces data with
      | none => .error (.basic "decode namespaces response: unmarshal error")
      | some w =>
        match w.namespaces with
        | some infos => .ok infos
        | none =>
          match w.namespaceList with
          | some names => .ok (names.map minimalInfo)
          | none => .error (.basic "decode namespaces response: missing namespaces")

theorem validateQuery_error_isValidation (v : List ℚ) (o : QueryOptions) (e : GoError)
    (h : validateQuery v o = .error e) : IsValidationError e = true := by
  unfold validateQuery at h
  split_ifs at h <;>
    first
      | exact Except.noConfusion h
      | (injection h with h2; subst h2; rfl)

theorem namespaceOrDefault_error_isValidation (c : Config) (ns : String) (e : GoError)
    (h : namespaceOrDefault c ns = .error e) : IsValidationError e = true := by
  unfold namespaceOrDefault at h
  split_ifs at h <;>
    first
      | exact Except.noConfusion h
      | (injection h with h2; subst h2; rfl)

theorem joinURL_error_isValidation (base : String) (parts : List String) (e : GoError)
    (h : joinURL base parts = .error e) : IsValidationError e = true := by
  unfold joinURL at h
  split_ifs at h <;>
    first
      | exact Except.noConfusion h
      | (injection h with h2; subst h2; rfl)

theorem queryPlan_error_isValidation (c : Config) (v : List ℚ) (o : QueryOptions) (e : GoError)
    (h : queryPlan c v o = .error e) : IsValidationError e = true := by
  unfold queryPlan at h
  cases hv : validateQuery v o with
  | error e1 =>
    rw [hv] at h
    simp only [] at h
    injection h with h2
    subst h2
    exact validateQuery_error_isValidation v o _ hv
  | ok u =>
    rw [hv] at h
    simp only [] at h
    cases hn : namespaceOrDefault c o.«namespace» with
    | error e1 =>
      rw [hn] at h
      simp only [] at h
      injection h with h2
      subst h2
      exact namespaceOrDefault_error_isValidation c _ _ hn
    | ok ns =>
      rw [hn] at h
      simp only [] at h
      cases hj : joinURL c.queryURL ["v1", "vectors", ns] with
      | error e1 =>
        rw [hj] at h
        simp only [] at h
        injection h with h2
        subst h2
        exact joinURL_error_isValidation _ _ _ hj
      | ok ep =>
        rw [hj] at h
        simp only [] at h
        exact Except.noConfusion h

theorem queryPlan_error_of_validate (c : Config) (v : List ℚ) (o : QueryOptions) (e : GoError)
    (h : validateQuery v o = .error e) : queryPlan c v o = .error e := by
  unfold queryPlan
  rw [h]

/-- C1: the spec's namespace-resolution contract fails on the code under
src/: New initializes only the deprecated Namespace field (to the built-in
default) and namespaceOrDefault reads only that field, so the value set via
WithDefaultNamespace is ignored. A client configured with
WithDefaultNamespace "products" resolves an empty per-call namespace to
"default", not "products"; moreover New with no options leaves
Config.DefaultNamespace empty, while the repository's own
TestNewDefaultsAndOptions requires it to equal the built-in default. -/
theorem withDefaultNamespace_ignored_by_resolution :
    namespaceOrDefault (New [WithDefaultNamespace "products"]) "" = .ok "default"
    ∧ namespaceOrDefault (New [WithDefaultNamespace "products"]) "" ≠ .ok "products"
    ∧ (New []).defaultNamespace = ""
    ∧ defaultNamespace = "default" := by
  refine ⟨rfl, ?_, rfl, rfl⟩
  intro h
  have h1 : Except.ok (ε := GoError) "default" = Except.ok "products" := h
  injection h1 with h2
  exact absurd h2 (by decide)

/-- C2: handleError classification: for every status at least 400, the
returned error is a validation error exactly for 400 and 413, a not-found
error exactly for 404, a service-unavailable error exactly for 503; the
TidepoolError detail carrier holds the trimmed error-body message when
non-empty, else the HTTP status text, together with the status code and the
raw body; and a 404 with body carrying error "namespace not found" is a
not-found error whose message contains "namespace not found". -/
theorem handleError_taxonomy (status : Int) (body : Json) (h400 : 400 ≤ status) :
    (IsValidationError (handleError status body) = true ↔ status = 400 ∨ status = 413)
    ∧ (IsNotFoundError (handleError status body) = true ↔ status = 404)
    ∧ (IsServiceUnavailableError (handleError status body) = true ↔ status = 503)
    ∧ tidepoolDetail (handleError status body) =
        some (if trimSpace (unmarshalErrField body) = "" then statusText status
              else trimSpace (unmarshalErrField body), status, body)
    ∧ IsNotFoundError (handleError 404 (.obj [("error", .str "namespace not found")])) = true
    ∧ errMessage (handleError 404 (.obj [("error", .str "namespace not found")])) =
        "not found" ++ "\n" ++ "namespace not found" := by
  refine ⟨?_, ?_, ?_, ?_, by decide, by decide⟩ <;>
    · unfold handleError
      split_ifs <;>
        simp_all [IsValidationError, IsNotFoundError, IsServiceUnavailableError, errIs,
          ErrValidation, ErrNotFound, ErrServiceUnavailable, tidepoolDetail, Option.orElse] <;>
        omega

/-- Closed instance of handleError_taxonomy: a 400 response is a validation
error and a 404 response with an error body is a not-found error carrying
the extracted message. -/
theorem handleError_taxonomy_witness :
    (400 ≤ (400 : Int))
    ∧ (IsValidationError (handleError 400 Json.null) = true ↔ (400 : Int) = 400 ∨ (400 : Int) = 413)
    ∧ tidepoolDetail (handleError 404 (.obj [("error", .str "namespace not found")])) =
        some (if trimSpace (unmarshalErrField (.obj [("error", .str "namespace not found")])) = ""
              then statusText 404
              else trimSpace (unmarshalErrField (.obj [("error", .str "namespace not found")])),
              404, .obj [("error", .str "namespace not found")]) :=
  ⟨by decide,
   (handleError_taxonomy 400 Json.null (by decide)).1,
   (handleError_taxonomy 404 (.obj [("error", .str "namespace not found")]) (by decide)).2.2.2.1⟩

/-- C3: the query validation matrix (spec-modelled): a query whose effective
mode is vector and whose vector is empty, a text-mode query without text,
and a hybrid-mode query missing the vector or the text, all fail with a
validation error before any request is built; and text mode permits an
absent vector, validating successfully whenever text is present and the
remaining options are well-formed. -/
theorem query_mode_validation_matrix (c : Config) (v : List ℚ) (o : QueryOptions) :
    (effectiveMode v o = "vector" → v = [] →
      ∃ e, queryPlan c v o = .error e ∧ IsValidationError e = true)
    ∧ (effectiveMode v o = "text" → o.text = "" →
      ∃ e, queryPlan c v o = .error e ∧ IsValidationError e = true)
    ∧ (effectiveMode v o = "hybrid" → (v = [] ∨ o.text = "") →
      ∃ e, queryPlan c v o = .error e ∧ IsValidationError e = true)
    ∧ (o.mode = "text" → o.text ≠ "" → 0 ≤ o.topK → o.fusion = "" → o.rrfK = none →
      validateQuery v o = .ok ()) := by
  have fail : ∀ h : ∃ e1, validateQuery v o = .error e1,
      ∃ e, queryPlan c v o = .error e ∧ IsValidationError e = true := by
    rintro ⟨e1, he⟩
    exact ⟨e1, queryPlan_error_of_validate c v o e1 he,
      validateQuery_error_isValidation v o e1 he⟩
  refine ⟨?_, ?_, ?_, ?_⟩
  · intro hm hv
    refine fail ?_
    unfold validateQuery
    split_ifs <;> first | exact ⟨_, rfl⟩ | simp_all [effectiveMode]
  · intro hm ht
    refine fail ?_
    unfold validateQuery
    split_ifs <;> first | exact ⟨_, rfl⟩ | simp_all [effectiveMode]
  · intro hm hvt
    refine fail ?_
    unfold validateQuery
    rcases hvt with hv | ht <;>
      split_ifs <;> first | exact ⟨_, rfl⟩ | simp_all [effectiveMode]
  · intro hm ht htk hf hr
    have hem : effectiveMode v o = "text" := by
      unfold effectiveMode
      rw [hm]
      simp
    unfold validateQuery
    rw [hem, if_neg (by omega), if_neg (by simp [hm]), if_neg (by simp [hf]),
      if_neg (by rw [hr]; decide), if_pos rfl, if_neg ht]

/-- Closed instance of query_mode_validation_matrix: an explicit vector-mode
query with an empty vector fails with a validation error, and a text-mode
query with text and no vector passes validation. -/
theorem query_mode_validation_matrix_witness :
    (∃ e, queryPlan (New []) [] { mode := "vector" } = .error e ∧ IsValidationError e = true)
    ∧ validateQuery [] { mode := "text", text := "hi" } = .ok () :=
  ⟨(query_mode_validation_matrix (New []) [] { mode := "vector" }).1 rfl rfl,
   (query_mode_validation_matrix (New []) [] { mode := "text", text := "hi" }).2.2.2
     rfl (by decide) (by decide) rfl rfl⟩

/-- C9: a query whose options carry a negative TopK fails with a validation
error before any request is built (spec-modelled validation; the request
value only exists in the success branch of the plan). -/
theorem negative_topk_rejected (c : Config) (v : List ℚ) (o : QueryOptions)
    (h : o.topK < 0) :
    ∃ e, queryPlan c v o = .error e ∧ IsValidationError e = true := by
  have he : validateQuery v o = .error (.wrapped ErrValidation ": top_k cannot be negative") := by
    unfold validateQuery
    rw [if_pos h]
  exact ⟨_, queryPlan_error_of_validate c v o _ he,
    validateQuery_error_isValidation v o _ he⟩

/-- Closed instance of negative_topk_rejected at TopK equal to minus one. -/
theorem negative_topk_rejected_witness :
    ∃ e, queryPlan (New []) [1] { topK := -1 } = .error e ∧ IsValidationError e = true :=
  negative_topk_rejected (New []) [1] { topK := -1 } (by decide)

/-- C4: decodeVectorResults shape tolerance: any JSON value that unmarshals
as a list of results decodes identically when presented bare, wrapped in a
results field, or wrapped in a vectors field; and whenever decoding fails,
the resulting error satisfies none of the three HTTP-taxonomy predicates. -/
theorem decodeVectorResults_shape_tolerance :
    (∀ (a : Json) (rs : List VectorResult),
      unmarshalVectorResultList a = some (some rs) →
        decodeVectorResults a = .ok (some rs)
        ∧ decodeVectorResults (.obj [("results", a)]) = .ok (some rs)
        ∧ decodeVectorResults (.obj [("vectors", a)]) = .ok (some rs))
    ∧ (∀ (data : Json) (e : GoError), decodeVectorResults data = .error e →
        IsValidationError e = false
        ∧ IsNotFoundError e = false
        ∧ IsServiceUnavailableError e = false) := by
  constructor
  · intro a rs h
    refine ⟨?_, ?_, ?_⟩
    · unfold decodeVectorResults
      rw [h]
    · unfold decodeVectorResults
      have h0 : unmarshalVectorResultList (Json.obj [("results", a)]) = none := rfl
      rw [h0]
      simp [unmarshalWrappedResults, applyWRField, h, List.foldlM_cons, List.foldlM_nil]
    · unfold decodeVectorResults
      have h0 : unmarshalVectorResultList (Json.obj [("vectors", a)]) = none := rfl
      rw [h0]
      simp [unmarshalWrappedResults, applyWRField, h, List.foldlM_cons, List.foldlM_nil]
  · intro data e h
    unfold decodeVectorResults at h
    have hb : ∀ m : String, GoError.basic m = e →
        IsValidationError e = false ∧ IsNotFoundError e = false
        ∧ IsServiceUnavailableError e = false := by
      rintro m rfl
      exact ⟨rfl, rfl, rfl⟩
    cases hu : unmarshalVectorResultList data with
    | some direct => rw [hu] at h; exact Except.noConfusion h
    | none =>
      rw [hu] at h
      simp only [] at h
      cases hw : unmarshalWrappedResults data with
      | none =>
        rw [hw] at h
        simp only [] at h
        injection h with h2
        exact hb _ h2
      | some w =>
        rw [hw] at h
        simp only [] at h
        cases hr : w.results with
        | some rs => rw [hr] at h; exact Except.noConfusion h
        | none =>
          rw [hr] at h
          simp only [] at h
          cases hv : w.vectors with
          | some vs => rw [hv] at h; exact Except.noConfusion h
          | none =>
            rw [hv] at h
            simp only [] at h
            injection h with h2
            exact hb _ h2

/-- Closed instance of decodeVectorResults_shape_tolerance: a one-element
result list decodes identically from all three shapes, and the
missing-results decode error matches no taxonomy predicate. -/
theorem decodeVectorResults_shape_tolerance_witness :
    (decodeVectorResults (.arr [.obj [("id", .str "a"), ("score", .num 1)]])
        = .ok (some [{ id := "a", score := 1 }])
      ∧ decodeVectorResults (.obj [("results", .arr [.obj [("id", .str "a"), ("score", .num 1)]])])
        = .ok (some [{ id := "a", score := 1 }])
      ∧ decodeVectorResults (.obj [("vectors", .arr [.obj [("id", .str "a"), ("score", .num 1)]])])
        = .ok (some [{ id := "a", score := 1 }]))
    ∧ (IsValidationError (.basic "decode query response: missing results") = false
      ∧ IsNotFoundError (.basic "decode query response: missing results") = false
      ∧ IsServiceUnavailableError (.basic "decode query response: missing results") = false) :=
  ⟨decodeVectorResults_shape_tolerance.1 (.arr [.obj [("id", .str "a"), ("score", .num 1)]])
      [{ id := "a", score := 1 }] rfl,
   decodeVectorResults_shape_tolerance.2 (.obj [("namespace", .str "ns")])
      (.basic "decode query response: missing results") rfl⟩

/-- C6: score extraction priority in VectorResult.UnmarshalJSON: a score
field wins even when dist and distance are also present; otherwise dist is
used when present; otherwise distance; with none of the three the score is
zero. -/
theorem vectorResult_score_priority :
    (∀ (i : String) (s d dd : ℚ),
      unmarshalVectorResult
          (.obj [("id", .str i), ("score", .num s), ("dist", .num d), ("distance", .num dd)])
        = some { id := i, score := s, vector := none, attributes := none })
    ∧ (∀ (i : String) (d dd : ℚ),
      unmarshalVectorResult (.obj [("id", .str i), ("dist", .num d), ("distance", .num dd)])
        = some { id := i, score := d, vector := none, attributes := none })
    ∧ (∀ (i : String) (dd : ℚ),
      unmarshalVectorResult (.obj [("id", .str i), ("distance", .num dd)])
        = some { id := i, score := dd, vector := none, attributes := none })
    ∧ (∀ i : String,
      unmarshalVectorResult (.obj [("id", .str i)])
        = some { id := i, score := 0, vector := none, attributes := none }) :=
  ⟨fun _ _ _ _ => rfl, fun _ _ _ => rfl, fun _ _ => rfl, fun _ => rfl⟩

/-- C8: alpha clamping (spec-modelled payload builder): a transmitted alpha
always lies in the closed interval from 0 to 1 and agrees with the supplied
alpha when that was already in range; an alpha of 1.5 is transmitted as 1
and an alpha of -0.3 as 0, with the whole query succeeding rather than
being rejected. -/
theorem alpha_clamped_not_rejected :
    (∀ (v : List ℚ) (o : QueryOptions) (a b : ℚ),
      o.alpha = some a → (buildQueryPayload v o).alpha = some b →
        0 ≤ b ∧ b ≤ 1 ∧ (0 ≤ a → a ≤ 1 → b = a))
    ∧ (∃ r, queryPlan (New []) [1] { text := "hello", alpha := some (3 / 2) } = .ok r
        ∧ r.payload.alpha = some 1)
    ∧ (∃ r, queryPlan (New []) [1] { text := "hello", alpha := some (-(3 / 10)) } = .ok r
        ∧ r.payload.alpha = some 0) := by
  refine ⟨?_, ⟨_, rfl, by norm_num [buildQueryPayload]⟩, ⟨_, rfl, by norm_num [buildQueryPayload]⟩⟩
  intro v o a b ha hb
  rw [buildQueryPayload, ha] at hb
  simp only [Option.map_some] at hb
  injection hb with hb2
  subst hb2
  refine ⟨?_, ?_, ?_⟩
  · dsimp only
    split_ifs <;> linarith
  · dsimp only
    split_ifs <;> linarith
  · intro h0 h1
    dsimp only
    split_ifs <;> linarith

/-- Closed instance of alpha_clamped_not_rejected: an in-range alpha of one
half is transmitted bounded by 0 and 1 and unchanged. -/
theorem alpha_clamped_not_rejected_witness :
    0 ≤ (1 / 2 : ℚ) ∧ (1 / 2 : ℚ) ≤ 1
    ∧ (0 ≤ (1 / 2 : ℚ) → (1 / 2 : ℚ) ≤ 1 → (1 / 2 : ℚ) = 1 / 2) :=
  alpha_clamped_not_rejected.1 [1] { text := "hello", alpha := some (1 / 2) }
    (1 / 2) (1 / 2) rfl (by norm_num [buildQueryPayload])

theorem strElems_map_str (names : List String) : strElems (names.map .str) = some names := by
  induction names with
  | nil => rfl
  | cons n t ih => simp [strElems, List.map_cons, ih]

theorem unmarshalStringList_map_str (names : List String) :
    unmarshalStringList (.arr (names.map .str)) = some (some names) := by
  show (strElems (names.map .str)).map some = some (some names)
  rw [strElems_map_str]
  rfl

/-- C5: decodeNamespaces shape tolerance (spec-modelled): a bare list of
name strings and a wrapped legacy namespace_list of the same names both
decode to minimal info records carrying only the name; a bare list of full
info objects and the same list wrapped in a namespaces field both decode to
the same info records; a minimal record leaves every field except the name
at its default; and a body matching none of the shapes fails to decode. -/
theorem decodeNamespaces_shape_tolerance :
    (∀ names : List String,
      decodeNamespaces (.arr (names.map .str)) = .ok (names.map minimalInfo)
      ∧ decodeNamespaces (.obj [("namespace_list", .arr (names.map .str))])
          = .ok (names.map minimalInfo))
    ∧ (∀ (fs : List (String × Json)) (es : List Json) (infos : List NamespaceInfo),
        namespaceInfoElems (Json.obj fs :: es) = some infos →
        decodeNamespaces (.arr (Json.obj fs :: es)) = .ok infos)
    ∧ (∀ (a : Json) (infos : List NamespaceInfo),
        unmarshalNamespaceInfoList a = some (some infos) →
        decodeNamespaces (.obj [("namespaces", a)]) = .ok infos)
    ∧ (∀ n, minimalInfo n =
        { «namespace» := n, approxCount := 0, dimensions := 0, pendingCompaction := none })
    ∧ (∃ e, decodeNamespaces (.obj [("namespaces", Json.null)]) = .error e)
    ∧ (∃ e, decodeNamespaces (.str "x") = .error e) := by
  refine ⟨?_, ?_, ?_, fun _ => rfl, ⟨_, rfl⟩, ⟨_, rfl⟩⟩
  · intro names
    constructor
    · unfold decodeNamespaces
      rw [unmarshalStringList_map_str]
    · unfold decodeNamespaces
      have h1 : unmarshalStringList (.obj [("namespace_list", .arr (names.map .str))])
          = none := rfl
      have h2 : unmarshalNamespaceInfoList (.obj [("namespace_list", .arr (names.map .str))])
          = none := rfl
      rw [h1, h2]
      simp [unmarshalWrappedNamespaces, applyWNField, unmarshalStringList_map_str,
        List.foldlM_cons, List.foldlM_nil]
  · intro fs es infos h
    unfold decodeNamespaces
    have h1 : unmarshalStringList (.arr (Json.obj fs :: es)) = none := rfl
    have h2 : unmarshalNamespaceInfoList (.arr (Json.obj fs :: es)) = some (some infos) := by
      simp [unmarshalNamespaceInfoList, h]
    rw [h1, h2]
  · intro a infos h
    unfold decodeNamespaces
    have h1 : unmarshalStringList (.obj [("namespaces", a)]) = none := rfl
    have h2 : unmarshalNamespaceInfoList (.obj [("namespaces", a)]) = none := rfl
    rw [h1, h2]
    simp [unmarshalWrappedNamespaces, applyWNField, h, List.foldlM_cons, List.foldlM_nil]

/-- Closed instance of decodeNamespaces_shape_tolerance: a two-object bare
info list and the wrapped namespaces shape decode to the same records. -/
theorem decodeNamespaces_shape_tolerance_witness :
    decodeNamespaces (.arr [.obj [("namespace", .str "a")], .obj [("namespace", .str "b")]])
        = .ok [minimalInfo "a", minimalInfo "b"]
    ∧ decodeNamespaces
        (.obj [("namespaces", .arr [.obj [("namespace", .str "a")], .obj [("namespace", .str "b")]])])
        = .ok [minimalInfo "a", minimalInfo "b"] :=
  ⟨decodeNamespaces_shape_tolerance.2.1 [("namespace", .str "a")]
      [.obj [("namespace", .str "b")]] [minimalInfo "a", minimalInfo "b"] rfl,
   decodeNamespaces_shape_tolerance.2.2.1
      (.arr [.obj [("namespace", .str "a")], .obj [("namespace", .str "b")]])
      [minimalInfo "a", minimalInfo "b"] rfl⟩

/-- C7: query-response namespace reporting (spec-modelled decoder): a bare
list reports the namespace the client resolved and sent; a wrapped response
carrying a non-empty namespace field reports the server-supplied value; a
wrapped response without that field reports the fallback; and every
successful decode reports either the fallback or the wrapped object's own
namespace field, never any other value. -/
theorem query_namespace_reporting :
    (∀ (a : Json) (rs : Option (List VectorResult)) (fb : String),
      unmarshalVectorResultList a = some rs →
        decodeQueryResponse a fb = .ok { results := rs, «namespace» := fb })
    ∧ (∀ (fb ns : String) (a : Json) (rs : List VectorResult), ns ≠ "" →
        unmarshalVectorResultList a = some (some rs) →
        decodeQueryResponse (.obj [("namespace", .str ns), ("results", a)]) fb
          = .ok { results := some rs, «namespace» := ns })
    ∧ (∀ (fb : String) (a : Json) (rs : List VectorResult),
        unmarshalVectorResultList a = some (some rs) →
        decodeQueryResponse (.obj [("results", a)]) fb
          = .ok { results := some rs, «namespace» := fb })
    ∧ (∀ (data : Json) (fb : String) (r : QueryResponse),
        decodeQueryResponse data fb = .ok r →
          r.«namespace» = fb
          ∨ ∃ w, unmarshalWrappedQueryResponse data = some w
              ∧ r.«namespace» = w.«namespace») := by
  refine ⟨?_, ?_, ?_, ?_⟩
  · intro a rs fb h
    unfold decodeQueryResponse
    rw [h]
  · intro fb ns a rs hns h
    unfold decodeQueryResponse
    have h0 : unmarshalVectorResultList (.obj [("namespace", .str ns), ("results", a)])
        = none := rfl
    rw [h0]
    simp [unmarshalWrappedQueryResponse, applyWQRField, h, hns,
      List.foldlM_cons, List.foldlM_nil]
  · intro fb a rs h
    unfold decodeQueryResponse
    have h0 : unmarshalVectorResultList (.obj [("results", a)]) = none := rfl
    rw [h0]
    simp [unmarshalWrappedQueryResponse, applyWQRField, h,
      List.foldlM_cons, List.foldlM_nil]
  · intro data fb r h
    unfold decodeQueryResponse at h
    cases hu : unmarshalVectorResultList data with
    | some direct =>
      rw [hu] at h
      simp only [] at h
      injection h with h2
      subst h2
      exact Or.inl rfl
    | none =>
      rw [hu] at h
      simp only [] at h
      cases hw : unmarshalWrappedQueryResponse data with
      | none => rw [hw] at h; exact Except.noConfusion h
      | some w =>
        rw [hw] at h
        simp only [] at h
        by_cases hn : w.«namespace» ≠ ""
        · rw [if_pos hn] at h
          refine Or.inr ⟨w, rfl, ?_⟩
          cases hr : w.results with
          | some rs =>
            rw [hr] at h
            injection h with h2
            subst h2
            rfl
          | none =>
            rw [hr] at h
            simp only [] at h
            cases hv : w.vectors with
            | some vs =>
              rw [hv] at h
              injection h with h2
              subst h2
              rfl
            | none => rw [hv] at h; exact Except.noConfusion h
        · rw [if_neg hn] at h
          refine Or.inl ?_
          cases hr : w.results with
          | some rs =>
            rw [hr] at h
            injection h with h2
            subst h2
            rfl
          | none =>
            rw [hr] at h
            simp only [] at h
            cases hv : w.vectors with
            | some vs =>
              rw [hv] at h
              injection h with h2
              subst h2
              rfl
            | none => rw [hv] at h; exact Except.noConfusion h

/-- Closed instance of query_namespace_reporting: the wrapped response with
a server namespace reports it, and the bare response reports the fallback. -/
theorem query_namespace_reporting_witness :
    decodeQueryResponse
        (.obj [("namespace", .str "ns"), ("results", .arr [.obj [("id", .str "b")]])]) "fallback"
      = .ok { results := some [{ id := "b" }], «namespace» := "ns" }
    ∧ decodeQueryResponse (.arr [.obj [("id", .str "a")]]) "fallback"
      = .ok { results := some [{ id := "a" }], «namespace» := "fallback" } :=
  ⟨query_namespace_reporting.2.1 "fallback" "ns" (.arr [.obj [("id", .str "b")]])
      [{ id := "b" }] (by decide) rfl,
   query_namespace_reporting.1 (.arr [.obj [("id", .str "a")]]) (some [{ id := "a" }])
      "fallback" rfl⟩

/-- C10: Health matches its service argument case-insensitively: when the
lowercased argument is query or ingest the plan targets that service's base
URL; otherwise the call fails with a validation error whose message quotes
the unknown service, and no request is issued (the health plan is the same
error). -/
theorem health_service_case_insensitive (c : Config) (s : String) :
    (toLowerStr s = "query" →
      serviceBaseURL c s = .ok c.queryURL
      ∧ healthPlan c s = (joinURL c.queryURL ["health"]).map fun ep => ("GET", ep))
    ∧ (toLowerStr s = "ingest" →
      serviceBaseURL c s = .ok c.ingestURL
      ∧ healthPlan c s = (joinURL c.ingestURL ["health"]).map fun ep => ("GET", ep))
    ∧ (toLowerStr s ≠ "query" → toLowerStr s ≠ "ingest" →
      ∃ e, serviceBaseURL c s = .error e
        ∧ healthPlan c s = .error e
        ∧ IsValidationError e = true
        ∧ errMessage e = "validation error" ++ (": unknown service \"" ++ s ++ "\"")) := by
  refine ⟨?_, ?_, ?_⟩
  · intro h
    have hs : serviceBaseURL c s = .ok c.queryURL := by
      unfold serviceBaseURL
      rw [if_pos h]
    refine ⟨hs, ?_⟩
    unfold healthPlan
    rw [hs]
    cases hj : joinURL c.queryURL ["health"] <;>
      simp [hj, Except.map, bind, Except.bind, pure, Except.pure]
  · intro h
    by_cases hq : toLowerStr s = "query"
    · rw [hq] at h
      exact absurd h (by decide)
    · have hs : serviceBaseURL c s = .ok c.ingestURL := by
        unfold serviceBaseURL
        rw [if_neg hq, if_pos h]
      refine ⟨hs, ?_⟩
      unfold healthPlan
      rw [hs]
      cases hj : joinURL c.ingestURL ["health"] <;>
        simp [hj, Except.map, bind, Except.bind, pure, Except.pure]
  · intro hq hi
    have hs : serviceBaseURL c s
        = .error (.wrapped ErrValidation (": unknown service \"" ++ s ++ "\"")) := by
      unfold serviceBaseURL
      rw [if_neg hq, if_neg hi]
    refine ⟨_, hs, ?_, rfl, rfl⟩
    unfold healthPlan
    rw [hs]
    rfl

/-- Closed instance of health_service_case_insensitive: mixed-case QuErY
targets the query base URL and an unknown service yields a quoted
validation error with no request. -/
theorem health_service_case_insensitive_witness :
    (serviceBaseURL (New []) "QuErY" = .ok (New []).queryURL
      ∧ healthPlan (New []) "QuErY"
        = (joinURL (New []).queryURL ["health"]).map fun ep => ("GET", ep))
    ∧ (∃ e, serviceBaseURL (New []) "bogus" = .error e
        ∧ healthPlan (New []) "bogus" = .error e
        ∧ IsValidationError e = true
        ∧ errMessage e = "validation error" ++ (": unknown service \"" ++ "bogus" ++ "\"")) :=
  ⟨(health_service_case_insensitive (New []) "QuErY").1 (by decide),
   (health_service_case_insensitive (New []) "bogus").2.2 (by decide) (by decide)⟩

end Tidepool
